import Mathlib

/-!
Verification development for the greeting-generation utility.

The data model and operations below are shallow embeddings of the Python
sources `src/config/i18n.py`, `src/config/validation.py` and
`src/config/templates.py`.  Python dictionaries become association lists,
raised exceptions become `Option`/`Except` results, and Python string
formatting becomes an explicit, fuel-based placeholder substitution on
character lists.  A handful of definitions (the renderer, the validated
configuration record and its persistence) embed code whose file is not part
of the sources at hand; those are modelled from the specification and say so
in their doc comments.
-/

namespace Greeting

/-- The closed `Language` enumeration from `src/config/i18n.py`
(a `str`-valued enum with members EN/ES/FR/DE/JA). -/
inductive Language where
  | en
  | es
  | fr
  | de
  | ja
deriving DecidableEq

/-- The string value carried by each `Language` member (`Language.EN.value == "en"`, ...). -/
def Language.value : Language → String
  | .en => "en"
  | .es => "es"
  | .fr => "fr"
  | .de => "de"
  | .ja => "ja"

/-- The `Language(text)` enum conversion: succeeds exactly on the five member
values, otherwise Python raises `ValueError` (modelled as `none`). -/
def Language.ofValue (s : String) : Option Language :=
  if s = "en" then some .en
  else if s = "es" then some .es
  else if s = "fr" then some .fr
  else if s = "de" then some .de
  else if s = "ja" then some .ja
  else none

/-- `Translations` dataclass from `src/config/i18n.py`.  The source fields are
`greeting_prefix`, `greeting_suffix` and `error_messages`; the first two are
renamed `greeting_head` / `greeting_tail` here.  The `error_messages`
dictionary becomes an association list. -/
structure Translations where
  greeting_head : String
  greeting_tail : String
  error_messages : List (String × String)
deriving DecidableEq

/-- The `_TRANSLATIONS` table from `src/config/i18n.py`, one entry per language. -/
def translationsTable : List (Language × Translations) :=
  [ (.en, { greeting_head := "Hello"
          , greeting_tail := "!"
          , error_messages :=
              [ ("invalid_name", "Name cannot be empty")
              , ("invalid_template", "Invalid template style")
              , ("invalid_language", "Unsupported language") ] })
  , (.es, { greeting_head := "¡Hola"
          , greeting_tail := "!"
          , error_messages :=
              [ ("invalid_name", "El nombre no puede estar vacío")
              , ("invalid_template", "Estilo de plantilla inválido")
              , ("invalid_language", "Idioma no soportado") ] })
  , (.fr, { greeting_head := "Bonjour"
          , greeting_tail := "!"
          , error_messages :=
              [ ("invalid_name", "Le nom ne peut pas être vide")
              , ("invalid_template", "Style de modèle invalide")
              , ("invalid_language", "Langue non supportée") ] })
  , (.de, { greeting_head := "Hallo"
          , greeting_tail := "!"
          , error_messages :=
              [ ("invalid_name", "Name darf nicht leer sein")
              , ("invalid_template", "Ungültiger Vorlagenstil")
              , ("invalid_language", "Nicht unterstützte Sprache") ] })
  , (.ja, { greeting_head := "こんにちは"
          , greeting_tail := "！"
          , error_messages :=
              [ ("invalid_name", "名前を入力してください")
              , ("invalid_template", "無効なテンプレートスタイル")
              , ("invalid_language", "サポートされていない言語") ] }) ]

/-- `get_translation` from `src/config/i18n.py`: dictionary lookup guarded by a
membership test; the `ValueError` raised on a missing key is modelled as `none`. -/
def get_translation (language : Language) : Option Translations :=
  translationsTable.lookup language

/-- `translate_error` from `src/config/i18n.py`:
`get_translation(language).error_messages.get(error_key, error_key)`.
The `Option` layer propagates `get_translation`'s failure mode. -/
def translate_error (error_key : String) (language : Language) : Option String :=
  (get_translation language).map
    (fun t => ((Translations.error_messages t).lookup error_key).getD error_key)

/-- The closed `TemplateCategory` enumeration from `src/config/templates.py`. -/
inductive TemplateCategory where
  | formal
  | casual
  | funny
  | business
deriving DecidableEq

/-- `TemplateInfo` dataclass from `src/config/templates.py`; the `tags` set
becomes a (duplicate-free) list. -/
structure TemplateInfo where
  pattern : String
  category : TemplateCategory
  tags : List String
  description : String
deriving DecidableEq

/-- The `TemplateManager._templates` class-level registry from
`src/config/templates.py`, in source order. -/
def templatesRegistry : List (String × TemplateInfo) :=
  [ ("default",
      { pattern := "Hello, {name}! {message}"
      , category := .casual
      , tags := ["simple", "general"]
      , description := "A simple, casual greeting" })
  , ("formal",
      { pattern := "Dear {name}, {message}"
      , category := .formal
      , tags := ["polite", "business"]
      , description := "A formal, professional greeting" })
  , ("friendly",
      { pattern := "Hey {name}! {message}"
      , category := .casual
      , tags := ["informal", "friendly"]
      , description := "A friendly, informal greeting" })
  , ("enthusiastic",
      { pattern := "Hi {name}! {message} 🎉"
      , category := .funny
      , tags := ["fun", "emoji"]
      , description := "An enthusiastic greeting with emoji" }) ]

/-- `TemplateManager.list_templates`: returns the full registry. -/
def list_templates : List (String × TemplateInfo) := templatesRegistry

/-- `TemplateManager.get_by_category`: the `isinstance(category, TemplateCategory)`
guard is modelled by an `Option` argument — `none` stands for any value that is
not a member of the enumeration, on which the source raises `ValueError`
(the `.error` branch); a member filters the registry by category equality. -/
def get_by_category (category : Option TemplateCategory) :
    Except String (List (String × TemplateInfo)) :=
  match category with
  | none => .error "Invalid category type"
  | some c => .ok (templatesRegistry.filter (fun p => p.2.category == c))

/-- `TemplateManager.search_by_tags`: keeps the entries whose tag set has a
non-empty intersection with the query set (`tags & info.tags`). -/
def search_by_tags (tags : List String) : List (String × TemplateInfo) :=
  templatesRegistry.filter (fun p => tags.any (fun t => p.2.tags.contains t))

/-- `TemplateManager.get_template_info`: raw dictionary access; the `KeyError`
on an absent name is modelled as `none`. -/
def get_template_info (name : String) : Option TemplateInfo :=
  templatesRegistry.lookup name

/-- `TemplateManager.get_template`: `_templates[name].pattern`. -/
def get_template (name : String) : Option String :=
  (get_template_info name).map TemplateInfo.pattern

/-- `LogLevel.__members__` from `src/config/validation.py`: the closed set of
valid log-level names. -/
def logLevelMembers : List String :=
  ["DEBUG", "INFO", "WARNING", "ERROR", "CRITICAL"]

/-- A Python value as far as the validation code can observe it: a boolean, a
string, a `Language` enum member, any other hashable value, or an unhashable
value (a list, dict or set, say).  The distinction matters because the `in`
membership test against a dict hashes the left operand and raises an uncaught
`TypeError` on an unhashable value. -/
inductive PyValue where
  | boolV (b : Bool)
  | strV (s : String)
  | langV (l : Language)
  | otherV
  | unhashableV
deriving DecidableEq

/-- How a `PyValue` prints inside an f-string (`f"Invalid log level: {v}"`). -/
def PyValue.display : PyValue → String
  | .boolV true => "True"
  | .boolV false => "False"
  | .strV s => s
  | .langV l => Language.value l
  | .otherV => "<object>"
  | .unhashableV => "<unhashable object>"

/-- The duck-typed object `validate_config` probes: each field is `none` when
`hasattr` is false for that attribute. -/
structure RawConfig where
  log_level : Option PyValue
  template_style : Option PyValue
  language : Option PyValue
deriving DecidableEq

/-- The log-level check used by the spec-modelled `AppConfig` constructor
(spec §4.3 check 1: the value "must be a member of the closed log-level set"):
only a string naming a member passes, anything else fails the check.  The
source-faithful dict membership of `validate_config`, which can raise instead
of evaluating, is `memberOfLogLevels` below. -/
def inLogLevelMembers : PyValue → Bool
  | .strV s => logLevelMembers.contains s
  | _ => false

/-- The template-style check used by the spec-modelled `AppConfig` constructor
(spec §4.3 check 2: the value "must name an entry present in the Template
Registry").  The source-faithful dict membership of `validate_config` is
`memberOfTemplateRegistry` below. -/
def inTemplateRegistry : PyValue → Bool
  | .strV s => (templatesRegistry.lookup s).isSome
  | _ => false

/-- The language check shared by `validate_config` (`src/config/validation.py`
lines 68-76) and the spec-modelled constructor: passes when the value is a
`Language` instance, or when `Language(value)` converts without `ValueError`.
This check is total even on unhashable values: the enum machinery catches the
hash failure internally and reports `ValueError`, which the source catches. -/
def isValidLanguageValue : PyValue → Bool
  | .langV _ => true
  | .strV s => (Language.ofValue s).isSome
  | _ => false

/-- `config.log_level in LogLevel.__members__` (`src/config/validation.py`
line 54): Python's dict membership hashes the probed value, so it raises an
uncaught `TypeError` on an unhashable value (modelled `none`); otherwise it
evaluates to whether the value equals one of the string keys. -/
def memberOfLogLevels : PyValue → Option Bool
  | .strV s => some (logLevelMembers.contains s)
  | .unhashableV => none
  | _ => some false

/-- `config.template_style in TemplateManager.list_templates()`
(`src/config/validation.py` line 62): dict membership with the same raising
behaviour on unhashable values. -/
def memberOfTemplateRegistry : PyValue → Option Bool
  | .strV s => some ((templatesRegistry.lookup s).isSome)
  | .unhashableV => none
  | _ => some false

/-- The log-level block of `validate_config` (`src/config/validation.py`
lines 53-55): `hasattr` false short-circuits the `or` and appends
`"Invalid log level: None"` without touching the dict; a present value goes
through the membership test, whose `TypeError` (on an unhashable value)
escapes uncaught (`none`). -/
def logLevelErrors (attr : Option PyValue) : Option (List String) :=
  match attr with
  | none => some ["Invalid log level: None"]
  | some v =>
    match memberOfLogLevels v with
    | none => none
    | some true => some []
    | some false => some ["Invalid log level: " ++ PyValue.display v]

/-- The template-style block of `validate_config` (`src/config/validation.py`
lines 58-65), with the same structure as the log-level block. -/
def templateStyleErrors (attr : Option PyValue) : Option (List String) :=
  match attr with
  | none => some ["Invalid template style: None"]
  | some v =>
    match memberOfTemplateRegistry v with
    | none => none
    | some true => some []
    | some false => some ["Invalid template style: " ++ PyValue.display v]

/-- The language block of `validate_config` (`src/config/validation.py`
lines 68-76): total, since the `try/except ValueError` catches every failure
of the `Language(...)` conversion. -/
def languageErrors (attr : Option PyValue) : List String :=
  match attr with
  | none => ["Language not specified"]
  | some v =>
    if isValidLanguageValue v then []
    else ["Invalid language: " ++ PyValue.display v]

/-- `validate_config` from `src/config/validation.py`: three guarded checks,
each appending its messages to `errors`.  The returned value is `some` of the
accumulated list when the function returns normally, and `none` when one of
the two dict-membership tests raises an uncaught `TypeError` (which happens
exactly on an unhashable present `log_level` or `template_style` value);
evaluation is left to right, so a raise in the first block skips the rest. -/
def validate_config (config : RawConfig) : Option (List String) :=
  match logLevelErrors (RawConfig.log_level config) with
  | none => none
  | some e1 =>
    match templateStyleErrors (RawConfig.template_style config) with
    | none => none
    | some e2 =>
      some (e1 ++ e2 ++ languageErrors (RawConfig.language config))

/-- The validated configuration record.  Modelled from the spec: the
`AppConfig` class (`src/config/settings.py`) is not among the sources; §3 of
the spec gives its five fields (`debug`, `log_level`, `template_style`,
`language`, optional `custom_message`). -/
structure AppConfig where
  debug : Bool
  log_level : String
  template_style : String
  language : Language
  custom_message : Option String
deriving DecidableEq

/-- The raw constructor arguments before validation, as arbitrary Python
values; `custom_message = none` models an absent/None message. -/
structure RawInput where
  debug : PyValue
  log_level : PyValue
  template_style : PyValue
  language : PyValue
  custom_message : Option PyValue
deriving DecidableEq

/-- `debug` must be boolean-typed (spec §4.3 check 4). -/
def debugCheck : PyValue → Bool
  | .boolV _ => true
  | _ => false

/-- `custom_message`, if present, must be text-typed (spec §4.3 check 4). -/
def customMessageCheck : Option PyValue → Bool
  | none => true
  | some (.strV _) => true
  | some _ => false

/-- Modelled from the spec: the construction-time validation pass of
`AppConfig` (`src/config/settings.py` is not among the sources).  Spec §4.3:
a single pass over the independent checks, accumulating a mapping from field
name to message for every failing field. -/
def construction_errors (r : RawInput) : List (String × String) :=
  (if inLogLevelMembers r.log_level then []
   else [("log_level", "Invalid log level: " ++ PyValue.display r.log_level)])
  ++
  (if inTemplateRegistry r.template_style then []
   else [("template_style", "Invalid template style: " ++ PyValue.display r.template_style)])
  ++
  (if isValidLanguageValue r.language then []
   else [("language", "Invalid language: " ++ PyValue.display r.language)])
  ++
  (if debugCheck r.debug then []
   else [("debug", "debug must be a boolean")])
  ++
  (if customMessageCheck r.custom_message then []
   else [("custom_message", "custom_message must be a string")])

/-- `Language` coercion used once all checks passed: either the value is
already a member or its string converts. -/
def coerceLanguage : PyValue → Option Language
  | .langV l => some l
  | .strV s => Language.ofValue s
  | _ => none

/-- Modelled from the spec: `AppConfig` construction (spec §4.3) — validate,
and either fail with the complete field-to-message mapping
(`ConfigValidationError`) or produce the immutable record. -/
def construct_config (r : RawInput) : Except (List (String × String)) AppConfig :=
  if construction_errors r = [] then
    .ok { debug := match r.debug with | .boolV b => b | _ => false
        , log_level := match r.log_level with | .strV s => s | _ => ""
        , template_style := match r.template_style with | .strV s => s | _ => ""
        , language := (coerceLanguage r.language).getD .en
        , custom_message := match r.custom_message with
            | some (.strV s) => some s
            | _ => none }
  else
    .error (construction_errors r)

/-- Modelled from the spec: `AppConfig.to_file` (spec §6) — the flat key-value
record, with `debug` as a boolean literal, `language` as its string code and
`custom_message` absent when unset. -/
def save_config (c : AppConfig) : List (String × String) :=
  [ ("debug", if c.debug then "True" else "False")
  , ("log_level", c.log_level)
  , ("template_style", c.template_style)
  , ("language", Language.value c.language) ]
  ++ (match c.custom_message with
      | some m => [("custom_message", m)]
      | none => [])

/-- Modelled from the spec: `AppConfig.from_file` (spec §6) — parse the flat
record back into raw constructor arguments and re-run the full construction
validation pass. -/
def load_config (record : List (String × String)) :
    Except (List (String × String)) AppConfig :=
  construct_config
    { debug := match record.lookup "debug" with
        | some "True" => .boolV true
        | some "False" => .boolV false
        | some _ => .otherV
        | none => .otherV
    , log_level := match record.lookup "log_level" with
        | some s => .strV s
        | none => .otherV
    , template_style := match record.lookup "template_style" with
        | some s => .strV s
        | none => .otherV
    , language := match record.lookup "language" with
        | some s => .strV s
        | none => .otherV
    , custom_message := (record.lookup "custom_message").map PyValue.strV }

/-- One pass of left-to-right, non-overlapping replacement of `pat` by `rep`,
with explicit fuel so the definition is structural (the fuel is always the
length of the scanned list, which bounds the number of steps). -/
def replaceFuel (pat rep : List Char) : Nat → List Char → List Char
  | 0, s => s
  | _ + 1, [] => []
  | fuel + 1, c :: cs =>
    if pat ≠ [] ∧ pat.isPrefixOf (c :: cs) then
      rep ++ replaceFuel pat rep fuel ((c :: cs).drop pat.length)
    else
      c :: replaceFuel pat rep fuel cs

/-- String replacement of every occurrence of `pat` by `rep` (the semantics of
Python's `str.replace`, restricted to a non-empty pattern). -/
def strReplace (s pat rep : String) : String :=
  ⟨replaceFuel pat.toList rep.toList s.toList.length s.toList⟩

/-- `str.format(name=..., message=...)` on a registry pattern: substitute both
recognized placeholders. -/
def formatPattern (pat name message : String) : String :=
  strReplace (strReplace pat "\x7bname\x7d" name) "\x7bmessage\x7d" message

/-- The renderer's failure modes (spec §7): empty name, unregistered template
style, unsupported language. -/
inductive GreetError where
  | emptyName
  | templateNotFound
  | unsupportedLanguage
deriving DecidableEq

/-- Modelled from the spec: the greeting renderer `greet` (`src/main.py` is
not among the sources).  Spec §4.4 and §2: reject exactly the literal empty
name; resolve the translation record; for the default style compose
`prefix + ", " + name + suffix + " " + message`, otherwise substitute name and
message into the registered pattern; the custom message defaults to the empty
string. -/
def render (name : String) (config : AppConfig) : Except GreetError String :=
  if name = "" then .error .emptyName
  else
    match get_translation config.language with
    | none => .error .unsupportedLanguage
    | some t =>
      let message := config.custom_message.getD ""
      if config.template_style = "default" then
        .ok (Translations.greeting_head t ++ ", " ++ name
              ++ Translations.greeting_tail t ++ " " ++ message)
      else
        match get_template config.template_style with
        | none => .error .templateNotFound
        | some pat => .ok (formatPattern pat name message)

/-- Modelled from the spec: the default configuration (spec §8: English,
`default` style, no custom message; debug off, log level INFO). -/
def defaultConfig : AppConfig :=
  { debug := false
  , log_level := "INFO"
  , template_style := "default"
  , language := .en
  , custom_message := none }

/-- The translations table has an entry for every `Language` member. -/
lemma get_translation_isSome (l : Language) : (get_translation l).isSome = true := by
  cases l <;> rfl

/-- `Language.ofValue` inverts `Language.value`. -/
lemma ofValue_value (l : Language) : Language.ofValue (Language.value l) = some l := by
  cases l <;> rfl

/-- C1: `render("World")` with the default configuration yields
`"Hello, World! "`; with the `friendly` style it yields `"Hey World! "`; with
language `es` it yields `"¡Hola, World! "` and with `fr` it yields
`"Bonjour, World! "` — the name and the (empty) custom message are substituted
into the registered template, the empty message leaving a trailing space. -/
theorem render_concrete_outputs :
    render "World" defaultConfig = .ok "Hello, World! "
    ∧ render "World" { defaultConfig with template_style := "friendly" } = .ok "Hey World! "
    ∧ render "World" { defaultConfig with language := .es } = .ok "¡Hola, World! "
    ∧ render "World" { defaultConfig with language := .fr } = .ok "Bonjour, World! " :=
  ⟨rfl, rfl, rfl, rfl⟩

/-- C9: every template registered in the registry has a pattern containing
both the `{name}` and the `{message}` placeholder. -/
theorem templates_contain_placeholders :
    ∀ p ∈ templatesRegistry,
      ("{name}".toList <:+: (TemplateInfo.pattern p.2).toList)
      ∧ ("{message}".toList <:+: (TemplateInfo.pattern p.2).toList) := by
  intro p hp
  fin_cases hp <;> exact ⟨by decide, by decide⟩

/-- Witness for C9 at the `default` template. -/
theorem templates_contain_placeholders_witness :
    ("{name}".toList <:+: ("Hello, {name}! {message}" : String).toList)
    ∧ ("{message}".toList <:+: ("Hello, {name}! {message}" : String).toList) :=
  templates_contain_placeholders
    ("default",
      { pattern := "Hello, {name}! {message}"
      , category := .casual
      , tags := ["simple", "general"]
      , description := "A simple, casual greeting" })
    (by decide)

/-- Counterexample to C10 as stated: an object whose `log_level` attribute
holds an unhashable value makes the membership test raise an uncaught
`TypeError` — `validate_config` raises instead of returning a list, even
though every attribute is present. -/
theorem validate_config_unhashable_counterexample :
    validate_config ⟨some .unhashableV, some (.strV "default"), some (.langV .en)⟩ = none
    ∧ ¬ ∃ msgs, validate_config
        ⟨some .unhashableV, some (.strV "default"), some (.langV .en)⟩ = some msgs := by
  refine ⟨rfl, ?_⟩
  rintro ⟨msgs, h⟩
  rw [show validate_config
      ⟨some .unhashableV, some (.strV "default"), some (.langV .en)⟩ = none from rfl] at h
  exact Option.noConfusion h

/-- A log-level block that is not fed an unhashable value returns normally. -/
lemma logLevelErrors_isSome (attr : Option PyValue)
    (h : attr ≠ some PyValue.unhashableV) : ∃ e, logLevelErrors attr = some e := by
  rcases attr with _ | (b | s | l | _ | _)
  · exact ⟨_, rfl⟩
  · exact ⟨_, rfl⟩
  · refine ⟨if logLevelMembers.contains s then []
            else ["Invalid log level: " ++ PyValue.display (.strV s)], ?_⟩
    simp only [logLevelErrors, memberOfLogLevels]
    cases hb : logLevelMembers.contains s <;> simp
  · exact ⟨_, rfl⟩
  · exact ⟨_, rfl⟩
  · exact absurd rfl h

/-- A template-style block that is not fed an unhashable value returns
normally. -/
lemma templateStyleErrors_isSome (attr : Option PyValue)
    (h : attr ≠ some PyValue.unhashableV) : ∃ e, templateStyleErrors attr = some e := by
  rcases attr with _ | (b | s | l | _ | _)
  · exact ⟨_, rfl⟩
  · exact ⟨_, rfl⟩
  · refine ⟨if (templatesRegistry.lookup s).isSome then []
            else ["Invalid template style: " ++ PyValue.display (.strV s)], ?_⟩
    simp only [templateStyleErrors, memberOfTemplateRegistry]
    cases hb : (templatesRegistry.lookup s).isSome <;> simp
  · exact ⟨_, rfl⟩
  · exact ⟨_, rfl⟩
  · exact absurd rfl h

/-- C10 (amended): `validate_config` returns the accumulated error list for
every object whose present `log_level` and `template_style` values are
hashable — in particular a missing attribute contributes an error entry for
that field instead of causing a failure; an unhashable value in either of
those two attributes instead makes the dict membership test raise an
uncaught `TypeError`. -/
theorem validate_config_total_off_unhashable :
    ∀ config : RawConfig,
      RawConfig.log_level config ≠ some PyValue.unhashableV →
      RawConfig.template_style config ≠ some PyValue.unhashableV →
      (∃ msgs, validate_config config = some msgs)
      ∧ (RawConfig.log_level config = none →
          ∀ msgs, validate_config config = some msgs →
            "Invalid log level: None" ∈ msgs)
      ∧ (RawConfig.template_style config = none →
          ∀ msgs, validate_config config = some msgs →
            "Invalid template style: None" ∈ msgs)
      ∧ (RawConfig.language config = none →
          ∀ msgs, validate_config config = some msgs →
            "Language not specified" ∈ msgs) := by
  rintro ⟨ll, ts, lg⟩ h1 h2
  obtain ⟨e1, he1⟩ := logLevelErrors_isSome ll h1
  obtain ⟨e2, he2⟩ := templateStyleErrors_isSome ts h2
  have hval : validate_config ⟨ll, ts, lg⟩ = some (e1 ++ e2 ++ languageErrors lg) := by
    simp [validate_config, he1, he2]
  refine ⟨⟨_, hval⟩, ?_, ?_, ?_⟩
  · rintro rfl msgs hmsgs
    rw [hval] at hmsgs
    obtain rfl := Option.some.inj hmsgs
    rw [show logLevelErrors none = some ["Invalid log level: None"] from rfl] at he1
    obtain rfl := Option.some.inj he1
    simp
  · rintro rfl msgs hmsgs
    rw [hval] at hmsgs
    obtain rfl := Option.some.inj hmsgs
    rw [show templateStyleErrors none
        = some ["Invalid template style: None"] from rfl] at he2
    obtain rfl := Option.some.inj he2
    simp
  · rintro rfl msgs hmsgs
    rw [hval] at hmsgs
    obtain rfl := Option.some.inj hmsgs
    simp [languageErrors]

/-- Witness for the amended C10: the object with all three attributes missing
returns normally, with an error entry for each field. -/
theorem validate_config_total_off_unhashable_witness :
    (∃ msgs, validate_config ⟨none, none, none⟩ = some msgs)
    ∧ (∀ msgs, validate_config ⟨none, none, none⟩ = some msgs →
        "Invalid log level: None" ∈ msgs
        ∧ "Invalid template style: None" ∈ msgs
        ∧ "Language not specified" ∈ msgs) := by
  have h := validate_config_total_off_unhashable ⟨none, none, none⟩
    (by decide) (by decide)
  exact ⟨h.1, fun msgs hm =>
    ⟨h.2.1 rfl msgs hm, h.2.2.1 rfl msgs hm, h.2.2.2 rfl msgs hm⟩⟩

/-- C5: `get_translation` succeeds on each of the five closed `Language`
values with a record whose `error_messages` holds the keys `invalid_name`,
`invalid_template` and `invalid_language`; for a string argument outside the
closed set the language conversion (and hence the lookup) fails. -/
theorem get_translation_closed_set :
    (∀ l : Language, ∃ t, get_translation l = some t
      ∧ ((Translations.error_messages t).lookup "invalid_name").isSome = true
      ∧ ((Translations.error_messages t).lookup "invalid_template").isSome = true
      ∧ ((Translations.error_messages t).lookup "invalid_language").isSome = true)
    ∧ (∀ s : String,
        (Language.ofValue s).bind get_translation = none
          ↔ s ∉ (["en", "es", "fr", "de", "ja"] : List String)) := by
  constructor
  · intro l
    cases l <;> exact ⟨_, rfl, by decide, by decide, by decide⟩
  · intro s
    unfold Language.ofValue
    split_ifs with h1 h2 h3 h4 h5 <;> simp_all <;> decide

/-- C6: `search_by_tags` returns exactly the registry entries whose tag set
meets the query set; the empty query yields the empty result, and querying
`{"business"}` returns a mapping containing the key `formal`. -/
theorem search_by_tags_spec :
    (∀ tags p, p ∈ search_by_tags tags ↔
      p ∈ templatesRegistry ∧ ∃ t ∈ tags, t ∈ TemplateInfo.tags p.2)
    ∧ search_by_tags [] = []
    ∧ "formal" ∈ (search_by_tags ["business"]).map Prod.fst := by
  refine ⟨fun tags p => ?_, rfl, by decide⟩
  simp [search_by_tags, List.mem_filter, List.any_eq_true, List.contains, List.elem_iff]

/-- C7: `get_by_category` fails exactly on an argument that is not a member of
the closed `TemplateCategory` enumeration, and on a member returns exactly the
registry entries of that category. -/
theorem get_by_category_spec :
    (∀ category : Option TemplateCategory,
      (∃ e, get_by_category category = .error e) ↔ category = none)
    ∧ (∀ c : TemplateCategory, ∃ m, get_by_category (some c) = .ok m
        ∧ ∀ p, p ∈ m ↔ p ∈ templatesRegistry ∧ TemplateInfo.category p.2 = c) := by
  constructor
  · intro category
    cases category <;> simp [get_by_category]
  · intro c
    refine ⟨_, rfl, fun p => ?_⟩
    simp [List.mem_filter]

/-- C8: `translate_error` returns the language's localized message when the
key is present in that language's `error_messages`, and returns the key
itself unchanged when it is absent. -/
theorem translate_error_fallback :
    ∀ (l : Language) (key : String) (t : Translations),
      get_translation l = some t →
      (((Translations.error_messages t).lookup key = none →
          translate_error key l = some key)
       ∧ (∀ v, (Translations.error_messages t).lookup key = some v →
          translate_error key l = some v)) := by
  intro l key t ht
  constructor
  · intro h
    simp [translate_error, ht, h]
  · intro v h
    simp [translate_error, ht, h]

/-- Witness for C8: a present key yields its Spanish message; an absent key
falls back to the key itself. -/
theorem translate_error_fallback_witness :
    translate_error "invalid_name" .es = some "El nombre no puede estar vacío"
    ∧ translate_error "no_such_key" .en = some "no_such_key" := by
  refine ⟨(translate_error_fallback .es "invalid_name" _ rfl).2 _ (by decide),
          (translate_error_fallback .en "no_such_key" _ rfl).1 (by decide)⟩

/-- The accumulated construction errors are empty exactly when all five field
checks pass. -/
lemma construction_errors_eq_nil_iff (r : RawInput) :
    construction_errors r = [] ↔
      (inLogLevelMembers (RawInput.log_level r) = true
        ∧ inTemplateRegistry (RawInput.template_style r) = true
        ∧ isValidLanguageValue (RawInput.language r) = true
        ∧ debugCheck (RawInput.debug r) = true
        ∧ customMessageCheck (RawInput.custom_message r) = true) := by
  unfold construction_errors
  split_ifs <;> simp_all

/-- C2: configuration construction runs all the independent field checks
without short-circuiting — it fails exactly when some check fails, and the
error mapping then carries an entry for every failing field (log level,
template style, language, debug typing, custom-message typing), not just the
first one. -/
theorem construct_config_accumulates_all_failures (r : RawInput) :
    ((∃ e, construct_config r = .error e) ↔
      ¬(inLogLevelMembers (RawInput.log_level r) = true
        ∧ inTemplateRegistry (RawInput.template_style r) = true
        ∧ isValidLanguageValue (RawInput.language r) = true
        ∧ debugCheck (RawInput.debug r) = true
        ∧ customMessageCheck (RawInput.custom_message r) = true))
    ∧ (inLogLevelMembers (RawInput.log_level r) = false →
        "log_level" ∈ (construction_errors r).map Prod.fst)
    ∧ (inTemplateRegistry (RawInput.template_style r) = false →
        "template_style" ∈ (construction_errors r).map Prod.fst)
    ∧ (isValidLanguageValue (RawInput.language r) = false →
        "language" ∈ (construction_errors r).map Prod.fst)
    ∧ (debugCheck (RawInput.debug r) = false →
        "debug" ∈ (construction_errors r).map Prod.fst)
    ∧ (customMessageCheck (RawInput.custom_message r) = false →
        "custom_message" ∈ (construction_errors r).map Prod.fst)
    ∧ (∀ e, construct_config r = .error e → e = construction_errors r) := by
  refine ⟨?_, ?_, ?_, ?_, ?_, ?_, ?_⟩
  · constructor
    · rintro ⟨e, he⟩ hall
      rw [construct_config, if_pos ((construction_errors_eq_nil_iff r).2 hall)] at he
      exact Except.noConfusion he
    · intro h
      have hne : construction_errors r ≠ [] := fun hnil =>
        h ((construction_errors_eq_nil_iff r).1 hnil)
      exact ⟨construction_errors r, by rw [construct_config, if_neg hne]⟩
  · intro h; simp [construction_errors, h]
  · intro h; simp [construction_errors, h]
  · intro h; simp [construction_errors, h]
  · intro h; simp [construction_errors, h]
  · intro h; simp [construction_errors, h]
  · intro e he
    by_cases hnil : construction_errors r = []
    · rw [construct_config, if_pos hnil] at he
      exact Except.noConfusion he
    · rw [construct_config, if_neg hnil] at he
      exact (Except.error.inj he).symm

/-- Witness for C2: an input with a bad log level, a bad language and a
non-boolean debug flag fails construction with all three fields reported. -/
theorem construct_config_accumulates_witness :
    "log_level" ∈ (construction_errors
        ⟨.otherV, .strV "TRACE", .strV "formal", .strV "zz", none⟩).map Prod.fst
    ∧ "language" ∈ (construction_errors
        ⟨.otherV, .strV "TRACE", .strV "formal", .strV "zz", none⟩).map Prod.fst
    ∧ "debug" ∈ (construction_errors
        ⟨.otherV, .strV "TRACE", .strV "formal", .strV "zz", none⟩).map Prod.fst
    ∧ (∃ e, construct_config
        ⟨.otherV, .strV "TRACE", .strV "formal", .strV "zz", none⟩ = .error e) := by
  have h := construct_config_accumulates_all_failures
    ⟨.otherV, .strV "TRACE", .strV "formal", .strV "zz", none⟩
  exact ⟨h.2.1 (by decide), h.2.2.2.1 (by decide), h.2.2.2.2.1 (by decide),
         h.1.2 (by decide)⟩

/-- C3: saving a valid configuration to the flat key-value record and loading
it back yields an identical configuration, the load path going through the
same full construction validation pass. -/
theorem save_load_roundtrip (c : AppConfig)
    (hlog : AppConfig.log_level c ∈ logLevelMembers)
    (hstyle : (templatesRegistry.lookup (AppConfig.template_style c)).isSome = true) :
    load_config (save_config c) = .ok c := by
  obtain ⟨b, ll, ts, lang, msg⟩ := c
  have hcontains : logLevelMembers.contains ll = true := by
    simpa [List.contains, List.elem_iff] using hlog
  cases b <;> cases msg <;>
    simp_all [load_config, save_config, construct_config, construction_errors,
      inLogLevelMembers, inTemplateRegistry, isValidLanguageValue,
      debugCheck, customMessageCheck, coerceLanguage, ofValue_value,
      List.lookup]

/-- Witness for C3 at the configuration exercised by the repository's own
round-trip test. -/
theorem save_load_roundtrip_witness :
    load_config (save_config ⟨true, "INFO", "formal", .es, some "Test message"⟩) =
      .ok ⟨true, "INFO", "formal", .es, some "Test message"⟩ :=
  save_load_roundtrip ⟨true, "INFO", "formal", .es, some "Test message"⟩
    (by decide) (by decide)

/-- C4: the renderer fails with the empty-name error exactly when the name is
the literal empty string, whatever the rest of the configuration; any
non-empty name — whitespace-only, unicode, emoji or symbols — is accepted
whenever the configured style is registered. -/
theorem render_rejects_exactly_empty_name :
    (∀ name config, render name config = .error .emptyName ↔ name = "")
    ∧ (∀ name config, name ≠ "" →
        (templatesRegistry.lookup (AppConfig.template_style config)).isSome = true →
        ∃ out, render name config = .ok out) := by
  constructor
  · intro name config
    constructor
    · intro h
      by_contra hne
      rw [render, if_neg hne] at h
      cases hgt : get_translation (AppConfig.language config) with
      | none => rw [hgt] at h; exact GreetError.noConfusion (Except.error.inj h)
      | some t =>
        rw [hgt] at h
        by_cases hd : AppConfig.template_style config = "default"
        · simp only [hd, if_pos] at h
          exact Except.noConfusion h
        · simp only [if_neg hd] at h
          cases hgp : get_template (AppConfig.template_style config) with
          | none => rw [hgp] at h; exact GreetError.noConfusion (Except.error.inj h)
          | some pat => rw [hgp] at h; exact Except.noConfusion h
    · intro h; rw [render, if_pos h]
  · intro name config hne hstyle
    rw [render, if_neg hne]
    cases hgt : get_translation (AppConfig.language config) with
    | none =>
      have hs := get_translation_isSome (AppConfig.language config)
      rw [hgt] at hs
      exact absurd hs (by decide)
    | some t =>
      dsimp only
      by_cases hd : AppConfig.template_style config = "default"
      · exact ⟨_, by rw [if_pos hd]⟩
      · have hpat : ∃ pat, get_template (AppConfig.template_style config) = some pat := by
          rw [get_template]
          cases hti : get_template_info (AppConfig.template_style config) with
          | none =>
            rw [get_template_info] at hti
            rw [hti] at hstyle
            exact absurd hstyle (by decide)
          | some info => exact ⟨TemplateInfo.pattern info, rfl⟩
        obtain ⟨pat, hgp⟩ := hpat
        refine ⟨formatPattern pat name (Option.getD (AppConfig.custom_message config) ""), ?_⟩
        rw [if_neg hd, hgp]

/-- Witness for C4: the empty name is rejected while a whitespace-only name
and an emoji name are rendered successfully. -/
theorem render_rejects_exactly_empty_name_witness :
    (render "" defaultConfig = .error .emptyName ↔ ("" : String) = "")
    ∧ (∃ out, render "   " defaultConfig = .ok out)
    ∧ (∃ out, render "🌟 星" defaultConfig = .ok out) := by
  have h := render_rejects_exactly_empty_name
  exact ⟨h.1 "" defaultConfig, h.2 "   " defaultConfig (by decide) (by decide),
         h.2 "🌟 星" defaultConfig (by decide) (by decide)⟩

end Greeting
